import Mathlib

/-!
Shallow embedding of the two GCRCatalogs readers
(`src/GCRCatalogs/dc2_truth22i.py` and `src/GCRCatalogs/dc2_dm_catalog.py`)
together with theorems settling the specification claims about them.

Conventions used throughout:
* Python dicts whose only relevant operations are insertion (last write wins)
  and lookup are embedded either as association lists with a left fold, or as
  functions `String → Option α`.
* Python exceptions are embedded as `Except`/`Option` results, or as an error
  component returned next to the (unchanged) state.
* numpy boolean arrays are embedded as `List Bool`.
-/

deriving instance DecidableEq for Except

/-- Lexicographic comparison of character lists by code point, the order
Python string comparison (and hence `sorted`) uses. -/
def chars_le : List Char → List Char → Bool
  | [], _ => true
  | _ :: _, [] => false
  | a :: as, b :: bs => if a < b then true else if b < a then false else chars_le as bs

/-- Embeds Python's `<=` on strings: code-point lexicographic order. -/
def str_le (a b : String) : Bool := chars_le a.data b.data

/-- Embeds Python's `str.endswith`: the suffix's characters end the
string's characters. -/
def str_endswith (s suffix : String) : Bool := suffix.data.isSuffixOf s.data

namespace Dc2Truth22i

/-- Embeds the fixed `type_dict` of `DC2Truth22CatalogReader._subclass_init`
(`dc2_truth22i.py` lines 61-62): declared sqlite storage types that get
rewritten to canonical numpy dtypes. -/
def type_dict : List (String × String) :=
  [("BIGINT", "int64"), ("INT", "int32"), ("FLOAT", "float32"), ("DOUBLE", "float64")]

/-- Embeds the per-value rewriting loop of `_subclass_init` (lines 64-68):
a declared type found among `type_dict`'s keys is replaced by the mapped
dtype; any other declared type string is kept unchanged. -/
def coerce_type (v : String) : String :=
  match type_dict.lookup v with
  | some t => t
  | none => v

/-- Embeds the dict comprehension of line 63,
`self._native_quantity_dtypes = dict {t[1]: t[2] for t in results.fetchall()}`
read back at a key `q`: `rows` is the `PRAGMA table_info` result restricted to
the (name, declared type) components; a later row with the same name
overwrites an earlier one, and a missing name gives `none` (Python KeyError
on access). -/
def raw_dtype (rows : List (String × String)) (q : String) : Option String :=
  rows.foldl (fun acc r => if r.1 = q then some r.2 else acc) none

/-- The dtype table after the coercion loop of lines 64-68: every stored
declared type is passed through `coerce_type`. -/
def native_dtype (rows : List (String × String)) (q : String) : Option String :=
  (raw_dtype rows q).map coerce_type

/-- The `base_filters` keyword argument of `_subclass_init` (lines 35-42):
it is either absent (Python `None` / missing key), a single string, or an
iterable of strings.  `GCRCatalogs.utils.is_string_like` distinguishes the
string case; the constructor split embeds that test. -/
inductive BaseFiltersArg
  | absent
  | str (s : String)
  | list (l : List String)

/-- Embeds lines 35-42 of `_subclass_init`: a truthy string is wrapped as a
one-element tuple (never iterated character by character), a truthy iterable
is materialised with `tuple(...)`, and a falsy value (absent, empty string,
empty iterable) gives the empty tuple. -/
def init_base_filters : BaseFiltersArg → List String
  | .absent => []
  | .str s => if s = "" then [] else [s]
  | .list l => if l = [] then [] else l

/-- Embeds lines 91-99 of `_iter_native_dataset`: the call-time
`native_filters` (a tuple when not `None`) is appended after the constructed
`base_filters`, and the WHERE clause parenthesizes each filter and joins with
`AND`; with no filters at all the clause is the empty string. -/
def truth_where_clause (base_filters : List String) (native_filters : Option (List String)) : String :=
  let all_filters := base_filters ++ native_filters.getD []
  if all_filters = [] then ""
  else "WHERE (" ++ String.intercalate ") AND (" all_filters ++ ")"

/-- Embeds the query construction of lines 105-109:
`SELECT q1, q2, ... FROM table_name where_clause;` (note the single space the
format string places between the table name and the, possibly empty, WHERE
clause). -/
def truth_query (quantities : List String) (table_name : String) (where_clause : String) : String :=
  "SELECT " ++ String.intercalate ", " quantities ++ " FROM " ++ table_name
    ++ " " ++ where_clause ++ ";"

/-- Embeds the record dtype of line 104,
`np.dtype [(q, self._native_quantity_dtypes[q]) for q in quantities]`: each
requested quantity is paired with its coerced dtype; a quantity missing from
the table raises KeyError, embedded as `none`. -/
def record_dtype (dtypes : String → Option String) : List String → Option (List (String × String))
  | [] => some []
  | q :: qs =>
    match dtypes q, record_dtype dtypes qs with
    | some t, some rest => some ((q, t) :: rest)
    | _, _ => none

/-- The observable behaviour of `dc2_truth_native_quantity_getter`
(lines 101-111): the exact SQL text it executes and the structured record
dtype it builds for the returned array. -/
structure TruthQueryPlan where
  query : String
  dtype : List (String × String)
deriving DecidableEq

/-- The plan produced by one invocation of the getter yielded by
`_iter_native_dataset`, given the catalog's dtype table, table name and the
where clause fixed by the iteration call. -/
def truth_getter_plan (table_name : String) (dtypes : String → Option String)
    (where_clause : String) (quantities : List String) : Option TruthQueryPlan :=
  match record_dtype dtypes quantities with
  | some dt => some ⟨truth_query quantities table_name where_clause, dt⟩
  | none => none

end Dc2Truth22i

namespace Dc2DmCatalog

/-- Embeds `create_basic_flag_mask` (`dc2_dm_catalog.py` lines 41-57).
`apply_flags n out l` is the loop `for flag in flags: out &= (~flag)` where
`out` has the fixed length `n = len (flags[0])`.  numpy's in-place `&=`
accepts a right operand whose length equals `n`, or a length-1 operand which
broadcasts across `out`; any other length raises a broadcast `ValueError`,
embedded as `.error`. -/
def apply_flags (n : Nat) (out : List Bool) : List (List Bool) → Except String (List Bool)
  | [] => .ok out
  | flag :: rest =>
    if flag.length = n then
      apply_flags n (List.zipWith (fun a b => a && !b) out flag) rest
    else if flag.length = 1 then
      apply_flags n (out.map (fun a => a && !flag.headI)) rest
    else .error "operands could not be broadcast together"

/-- Embeds `create_basic_flag_mask` (lines 41-57): `out` starts as
`np.ones (len (flags[0]), bool)` — all true — and is conjoined with the
negation of every flag array (the first array included).  An empty argument
list raises IndexError at `flags[0]`. -/
def create_basic_flag_mask (flags : List (List Bool)) : Except String (List Bool) :=
  match flags with
  | [] => .error "IndexError: tuple index out of range"
  | f0 :: _ => apply_flags f0.length (List.replicate f0.length true) flags

/-- Embeds the schema-version detection of `DC2DMCatalog._subclass_init`
(lines 110-115): version 1 when any column name ends in `_fluxSigma`, else
version 2 when any ends in `_fluxErr`, else version 3.  A schema is embedded
as its list of column names (dict insertion order). -/
def detect_dm_schema_version (schema : List String) : Nat :=
  if schema.any (fun col => str_endswith col "_fluxSigma") then 1
  else if schema.any (fun col => str_endswith col "_fluxErr") then 2
  else 3

/-- Insertion of a string into a sorted list, used to embed Python's
`sorted(...)` (stable ascending sort) structurally. -/
def insort (x : String) : List String → List String
  | [] => [x]
  | y :: ys => if str_le x y then x :: y :: ys else y :: insort x ys

/-- Embeds `sorted (os.listdir (self.base_dir))` of line 189 as an insertion
sort over the directory listing. -/
def sort_strings (l : List String) : List String := l.foldr insort []

/-- Embeds `DC2DMCatalog._generate_datasets` (lines 181-203): scan the sorted
listing, keep names matching the filename regex, open each and keep those
that open without an IO error (failures are skipped with a warning).  A
dataset is identified by its file name; `re_match` embeds
`self._filename_re.match` and `open_ok` the success of `_open_parquet`. -/
def generate_datasets (listing : List String) (re_match open_ok : String → Bool) : List String :=
  (sort_strings listing).filter (fun f => re_match f && open_ok f)

/-- The construction-time environment of `DC2DMCatalog._subclass_init`
(lines 81-120): everything the constructor observes from the file system and
keyword arguments.  `yaml_schema` is the parsed schema file content
(`none` embeds a YAML document that loads to `None`), present only when
`schema_file_exists`; `inferred` embeds
`_generate_schema_from_datafiles` (lines 229-252), whose parquet reads are
outside the embedded fragment; the schema itself is embedded as its list of
column names. -/
structure InitEnv where
  base_dir_is_dir : Bool
  listing : List String
  re_match : String → Bool
  open_ok : String → Bool
  schema_file_exists : Bool
  yaml_schema : Option (List String)
  inferred : List String → List String
  is_dpdd : Bool

/-- The errors `_subclass_init` can raise: `ValueError` for an invalid
`base_dir` (line 87) and `RuntimeError` when no catalog files are found
(lines 99-101). -/
inductive InitError
  | invalidBaseDir
  | noCatalogsFound
deriving DecidableEq

/-- The constructed state relevant to the claims: the resolved schema
(column names), the discovered datasets, and the detected DM schema version
(`none` when `is_dpdd` skips detection). -/
structure DC2DMState where
  schema : List String
  datasets : List String
  dm_schema_version : Option Nat
deriving DecidableEq

/-- The declared schema as resolved by lines 93-95: `self._schema` is set
from the YAML file only when one exists; Python's `None` and an empty dict
are both falsy at line 103 and are embedded as the empty list. -/
def declared_schema (env : InitEnv) : List String :=
  if env.schema_file_exists then env.yaml_schema.getD [] else []

/-- Embeds `DC2DMCatalog._subclass_init` (lines 81-120): validate `base_dir`,
resolve the declared schema, discover datasets (raising when none are found),
fall back to the inferred schema when the declared one is empty (a warning,
not an error), and detect the DM schema version unless `is_dpdd`.  Note that
an empty schema after the fallback does not raise. -/
def subclass_init (env : InitEnv) : Except InitError DC2DMState :=
  if !env.base_dir_is_dir then .error .invalidBaseDir
  else
    let datasets := generate_datasets env.listing env.re_match env.open_ok
    if datasets = [] then .error .noCatalogsFound
    else
      let schema0 := declared_schema env
      let schema := if schema0 = [] then env.inferred datasets else schema0
      let version := if env.is_dpdd then none else some (detect_dm_schema_version schema)
      .ok ⟨schema, datasets, version⟩

/-- File-system abstraction for `generate_schema_yaml`: the contents found at
each path, `none` when no file exists there. -/
def FileSys (α : Type) := String → Option α

/-- Writing a file: `open (path, w)` followed by a dump. -/
def fs_write {α : Type} (fs : FileSys α) (p : String) (c : α) : FileSys α :=
  fun q => if q = p then some c else fs q

/-- Embeds `shutil.copyfile (src, dst)` for an existing `src`: `dst` now
holds `src`'s content. -/
def fs_copyfile {α : Type} (fs : FileSys α) (src dst : String) : FileSys α :=
  fun q => if q = dst then fs src else fs q

/-- The error `generate_schema_yaml` raises when the schema file exists and
`overwrite` was not requested (line 262). -/
inductive SchemaYamlError
  | alreadyExists
deriving DecidableEq

/-- Embeds `DC2DMCatalog.generate_schema_yaml` (lines 254-274) as a
file-system transition: when a file already exists at the schema path
(a non-empty path, line 260) and `overwrite` is false, raise and touch
nothing; when it exists and `overwrite` is true, first copy it to the
sibling `.bak` path, then write the regenerated schema; when no file exists,
just write.  `regenerated` stands for the schema recomputed from the
datasets (lines 266-271), whose parquet reads are outside the embedded
fragment.  The state at the moment of a raise is returned next to the
error. -/
def generate_schema_yaml {α : Type} (schema_path : String) (overwrite : Bool)
    (regenerated : α) (fs : FileSys α) : FileSys α × Option SchemaYamlError :=
  if schema_path ≠ "" ∧ (fs schema_path).isSome then
    if !overwrite then (fs, some .alreadyExists)
    else
      let fs1 := fs_copyfile fs schema_path (schema_path ++ ".bak")
      (fs_write fs1 schema_path regenerated, none)
  else (fs_write fs schema_path regenerated, none)

/-- The file-handle cache of `DC2DMCatalog` (`self._file_handles`, line 97):
an association from file path to handle.  A handle is identified by its
allocation rank (`next_handle` counts the `pq.ParquetFile` constructions so
far), so that two constructions never yield the same handle — the embedding
of Python object identity. -/
structure FileHandleState where
  handles : List (String × Nat)
  next_handle : Nat
deriving DecidableEq

/-- Embeds `DC2DMCatalog._open_parquet` (lines 282-294): return the cached
handle when the path is present, otherwise construct a fresh handle
(`pq.ParquetFile (file_path)`), cache it and return it. -/
def open_parquet (s : FileHandleState) (p : String) : Nat × FileHandleState :=
  match s.handles.lookup p with
  | some h => (h, s)
  | none => (s.next_handle, ⟨(p, s.next_handle) :: s.handles, s.next_handle + 1⟩)

/-- Embeds `DC2DMCatalog.close_all_file_handles` (lines 296-302): the loop
`for fh in self._file_handles.values (): del fh` only unbinds the loop
variable, and `self._file_handles.clear ()` empties the cache. -/
def close_all_file_handles (s : FileHandleState) : FileHandleState :=
  ⟨[], s.next_handle⟩

/-- Well-formedness of the handle cache: every cached handle was allocated
before the current allocation rank.  It holds for the initial empty cache
and is preserved by `open_parquet` and `close_all_file_handles`. -/
def HandlesWF (s : FileHandleState) : Prop :=
  ∀ ph ∈ s.handles, ph.2 < s.next_handle

/-- Embeds `DC2DMCatalog._iter_native_dataset` (lines 308-318): the loop
yields one `native_quantity_getter` per dataset — each getter bound to its
dataset, embedded here by that dataset — but only when `native_filters is
None`; when a filter list is supplied nothing is yielded at all. -/
def iter_native_dataset {α : Type} (datasets : List α)
    (native_filters : Option (List String)) : List α :=
  datasets.filterMap (fun d => if native_filters.isNone then some d else none)

/-- A concrete construction environment for claim C4: valid base directory,
one matching and readable data file, no schema file, and inference producing
an empty schema. -/
def c4_env : InitEnv :=
  { base_dir_is_dir := true
    listing := ["source_visit_1.parquet"]
    re_match := fun _ => true
    open_ok := fun _ => true
    schema_file_exists := false
    yaml_schema := none
    inferred := fun _ => []
    is_dpdd := false }

/-- The environment of `c4_env` with an invalid base directory. -/
def c4_env_bad_dir : InitEnv := { c4_env with base_dir_is_dir := false }

/-- The environment of `c4_env` where no file matches the filename
pattern. -/
def c4_env_no_match : InitEnv := { c4_env with re_match := fun _ => false }

end Dc2DmCatalog

open Dc2DmCatalog in
/-- A concrete file system for the claim C7 witness: a single schema
artifact with content `0` at path `schema.yaml`. -/
def c7_fs : FileSys Nat := fun p => if p = "schema.yaml" then some 0 else none

/-! ### Helper lemmas -/

theorem list_getD_eq_getElem {α : Type} (l : List α) (d : α) (i : Nat) (h : i < l.length) :
    l.getD i d = l[i] := by
  simp [List.getD_eq_getElem?_getD, List.getElem?_eq_getElem h]

namespace Dc2DmCatalog

/-- The loop of `create_basic_flag_mask` keeps the output length fixed and,
when every flag array has the output's length, succeeds with the pointwise
conjunction of the accumulator and the negation of every flag. -/
theorem apply_flags_ok (n : Nat) (l : List (List Bool)) :
    ∀ out : List Bool, (∀ f ∈ l, f.length = n) → out.length = n →
    ∃ res, apply_flags n out l = .ok res ∧ res.length = n ∧
      ∀ i, i < n →
        res.getD i false = (out.getD i false && l.all (fun f => !(f.getD i false))) := by
  induction l with
  | nil =>
    intro out _ ho
    exact ⟨out, rfl, ho, fun i _ => by simp⟩
  | cons g rest ih =>
    intro out hl ho
    have hg : g.length = n := hl g (List.mem_cons_self _ _)
    have hz : (List.zipWith (fun a b => a && !b) out g).length = n := by
      simp [List.length_zipWith, ho, hg]
    obtain ⟨res, hres, hlen, hidx⟩ := ih (List.zipWith (fun a b => a && !b) out g)
      (fun f hf => hl f (List.mem_cons_of_mem _ hf)) hz
    refine ⟨res, by simp [apply_flags, hg, hres], hlen, ?_⟩
    intro i hi
    have h1 : i < out.length := by omega
    have h2 : i < g.length := by omega
    have h3 : i < (List.zipWith (fun a b => a && !b) out g).length := by omega
    rw [hidx i hi, list_getD_eq_getElem _ _ _ h3, List.getElem_zipWith,
      ← list_getD_eq_getElem out false i h1, ← list_getD_eq_getElem g false i h2]
    simp [Bool.and_assoc]

/-- The loop of `create_basic_flag_mask` raises a broadcast error whenever
some flag array's length is neither the output length nor 1. -/
theorem apply_flags_broadcast_error (n : Nat) (l : List (List Bool)) :
    ∀ out : List Bool, (∃ f ∈ l, f.length ≠ n ∧ f.length ≠ 1) →
    ∃ e, apply_flags n out l = .error e := by
  induction l with
  | nil =>
    intro out h
    obtain ⟨f, hf, _⟩ := h
    cases hf
  | cons g rest ih =>
    intro out h
    obtain ⟨f, hf, hne⟩ := h
    rcases List.mem_cons.mp hf with rfl | hfr
    · exact ⟨"operands could not be broadcast together", by simp [apply_flags, hne.1, hne.2]⟩
    · by_cases hgn : g.length = n
      · obtain ⟨e, he⟩ := ih (List.zipWith (fun a b => a && !b) out g) ⟨f, hfr, hne⟩
        exact ⟨e, by simp [apply_flags, hgn, he]⟩
      · by_cases hg1 : g.length = 1
        · obtain ⟨e, he⟩ := ih (out.map (fun a => a && !g.headI)) ⟨f, hfr, hne⟩
          have hstep : apply_flags n out (g :: rest)
              = apply_flags n (out.map (fun a => a && !g.headI)) rest := by
            simp only [apply_flags]
            rw [if_neg hgn, if_pos hg1]
          exact ⟨e, hstep ▸ he⟩
        · exact ⟨"operands could not be broadcast together", by simp [apply_flags, hgn, hg1]⟩

end Dc2DmCatalog

/-! ### Claim C2 -/

open Dc2DmCatalog in
/-- Claim C2: for every non-empty list of equal-length boolean arrays,
`create_basic_flag_mask` returns an array of the same length whose element at
position `i` is true iff every input array is false at position `i`; for a
single all-false array of length 5 the result is all-true, and setting
exactly one input element to true at position `i` flips the result to false
only at position `i`. -/
theorem claim_c2_create_basic_flag_mask (flags : List (List Bool)) (f0 : List Bool)
    (rest : List (List Bool)) (hflags : flags = f0 :: rest)
    (hlen : ∀ f ∈ flags, f.length = f0.length) :
    (∃ out, create_basic_flag_mask flags = .ok out ∧ out.length = f0.length ∧
        ∀ i, i < f0.length →
          (out.getD i false = true ↔ ∀ f ∈ flags, f.getD i false = false))
    ∧ create_basic_flag_mask [List.replicate 5 false] = .ok (List.replicate 5 true)
    ∧ (∀ i, i < 5 → create_basic_flag_mask [(List.replicate 5 false).set i true]
        = .ok ((List.replicate 5 true).set i false)) := by
  refine ⟨?_, by decide, by decide⟩
  subst hflags
  obtain ⟨res, hres, hlen', hidx⟩ :=
    apply_flags_ok f0.length (f0 :: rest) (List.replicate f0.length true) hlen (by simp)
  refine ⟨res, by simp [create_basic_flag_mask, hres], hlen', ?_⟩
  intro i hi
  have hrep : (List.replicate f0.length true).getD i false = true := by
    rw [list_getD_eq_getElem _ _ _ (by simpa using hi)]
    simp
  rw [hidx i hi, hrep, Bool.true_and, List.all_eq_true]
  simp

open Dc2DmCatalog in
/-- Witness for claim C2: the theorem applied to the concrete input
`[[false, true], [false, false]]`. -/
theorem claim_c2_witness :
    (∃ out, create_basic_flag_mask [[false, true], [false, false]] = .ok out ∧
        out.length = 2 ∧
        ∀ i, i < 2 → (out.getD i false = true ↔
          ∀ f ∈ [[false, true], [false, false]], f.getD i false = false))
    ∧ create_basic_flag_mask [List.replicate 5 false] = .ok (List.replicate 5 true)
    ∧ (∀ i, i < 5 → create_basic_flag_mask [(List.replicate 5 false).set i true]
        = .ok ((List.replicate 5 true).set i false)) :=
  claim_c2_create_basic_flag_mask [[false, true], [false, false]] [false, true]
    [[false, false]] rfl (by decide)

/-! ### Claim C6 -/

open Dc2DmCatalog in
/-- Counterexample to claim C6 as stated: the input arrays
`[false, false, false, false, false]` and `[true]` do not share the same
length, yet `create_basic_flag_mask` returns a normal result (numpy
broadcasts the length-1 operand) instead of failing. -/
theorem claim_c6_counterexample :
    create_basic_flag_mask [[false, false, false, false, false], [true]]
      = .ok [false, false, false, false, false]
    ∧ ([true] : List Bool).length ≠
        ([false, false, false, false, false] : List Bool).length := by decide

open Dc2DmCatalog in
/-- Claim C6 (amended): `create_basic_flag_mask` fails with an error on a
zero-length input list, and fails with an error whenever some input array's
length differs from the first array's length and is not 1 (a length-1 array
broadcasts instead of failing); it never returns a normal result in those
cases. -/
theorem claim_c6_flag_mask_errors (flags : List (List Bool)) (f0 : List Bool)
    (rest : List (List Bool)) (hflags : flags = f0 :: rest)
    (hbad : ∃ f ∈ flags, f.length ≠ f0.length ∧ f.length ≠ 1) :
    (∃ e, create_basic_flag_mask flags = .error e)
    ∧ create_basic_flag_mask [] = .error "IndexError: tuple index out of range" := by
  subst hflags
  refine ⟨?_, rfl⟩
  obtain ⟨e, he⟩ :=
    apply_flags_broadcast_error f0.length (f0 :: rest) (List.replicate f0.length true) hbad
  exact ⟨e, by simp [create_basic_flag_mask, he]⟩

open Dc2DmCatalog in
/-- Witness for claim C6 (amended): the theorem applied to the concrete
input `[[false, false], [true, false, true]]` of differing lengths 2 and
3. -/
theorem claim_c6_witness :
    (∃ e, create_basic_flag_mask [[false, false], [true, false, true]] = .error e)
    ∧ create_basic_flag_mask [] = .error "IndexError: tuple index out of range" :=
  claim_c6_flag_mask_errors [[false, false], [true, false, true]] [false, false]
    [[true, false, true]] rfl (by decide)

/-! ### Claim C3 -/

open Dc2DmCatalog in
/-- Counterexample to claim C3 as stated: with one dataset and a supplied
filter list, the columnar iteration yields no getters at all, rather than
one getter per dataset unaffected by the filters. -/
theorem claim_c3_counterexample :
    iter_native_dataset [(0 : Nat)] (some ["y<5"]) = []
    ∧ [(0 : Nat)].length = 1 := by decide

open Dc2DmCatalog in
/-- Claim C3 (amended): when no filter list is supplied, the columnar
iteration yields exactly one getter per dataset, in registry order (each
getter embedded by the dataset it is bound to — the getter reads only from
that dataset, so supplied filters could not influence its values); when a
filter list is supplied, the iteration yields nothing at all. -/
theorem claim_c3_iter_native_dataset {α : Type} (datasets : List α) (filters : List String) :
    iter_native_dataset datasets none = datasets
    ∧ iter_native_dataset datasets (some filters) = [] := by
  constructor
  · simp [iter_native_dataset]
  · simp [iter_native_dataset]

open Dc2DmCatalog in
/-- Witness for claim C3 (amended): the theorem applied to two concrete
datasets and the filter list `["y<5"]`. -/
theorem claim_c3_witness :
    iter_native_dataset [(0 : Nat), 1] none = [0, 1]
    ∧ iter_native_dataset [(0 : Nat), 1] (some ["y<5"]) = [] :=
  claim_c3_iter_native_dataset [0, 1] ["y<5"]

/-! ### Claim C5 -/

open Dc2DmCatalog in
/-- Claim C5: schema-version detection is first-match-wins in the priority
order legacy, intermediate, newest: any column ending in `_fluxSigma` gives
version 1 (even when `_fluxErr` columns are also present); otherwise any
column ending in `_fluxErr` gives version 2; otherwise version 3. -/
theorem claim_c5_detect_dm_schema_version (schema : List String) :
    ((∃ c ∈ schema, str_endswith c "_fluxSigma" = true) →
        detect_dm_schema_version schema = 1)
    ∧ ((∀ c ∈ schema, str_endswith c "_fluxSigma" = false) →
        (∃ c ∈ schema, str_endswith c "_fluxErr" = true) →
        detect_dm_schema_version schema = 2)
    ∧ ((∀ c ∈ schema, str_endswith c "_fluxSigma" = false) →
        (∀ c ∈ schema, str_endswith c "_fluxErr" = false) →
        detect_dm_schema_version schema = 3) := by
  refine ⟨fun h => ?_, fun h1 h2 => ?_, fun h1 h2 => ?_⟩
  · have ha : schema.any (fun col => str_endswith col "_fluxSigma") = true := by
      obtain ⟨c, hc, he⟩ := h
      exact List.any_eq_true.mpr ⟨c, hc, he⟩
    simp [detect_dm_schema_version, ha]
  · have ha : schema.any (fun col => str_endswith col "_fluxSigma") = false := by
      simp only [List.any_eq_false]
      intro c hc
      simp [h1 c hc]
    have hb : schema.any (fun col => str_endswith col "_fluxErr") = true := by
      obtain ⟨c, hc, he⟩ := h2
      exact List.any_eq_true.mpr ⟨c, hc, he⟩
    simp [detect_dm_schema_version, ha, hb]
  · have ha : schema.any (fun col => str_endswith col "_fluxSigma") = false := by
      simp only [List.any_eq_false]
      intro c hc
      simp [h1 c hc]
    have hb : schema.any (fun col => str_endswith col "_fluxErr") = false := by
      simp only [List.any_eq_false]
      intro c hc
      simp [h2 c hc]
    simp [detect_dm_schema_version, ha, hb]

open Dc2DmCatalog in
/-- Witness for claim C5: the theorem applied to three concrete schemas,
one with both suffix conventions (legacy wins), one with only the newer
convention, one with neither. -/
theorem claim_c5_witness :
    detect_dm_schema_version ["a_fluxSigma", "b_fluxErr"] = 1
    ∧ detect_dm_schema_version ["b_fluxErr", "c_flux"] = 2
    ∧ detect_dm_schema_version ["c_flux"] = 3 :=
  ⟨(claim_c5_detect_dm_schema_version ["a_fluxSigma", "b_fluxErr"]).1 (by decide),
   (claim_c5_detect_dm_schema_version ["b_fluxErr", "c_flux"]).2.1 (by decide) (by decide),
   (claim_c5_detect_dm_schema_version ["c_flux"]).2.2 (by decide) (by decide)⟩

/-! ### Claim C4 -/

namespace Dc2DmCatalog

/-- Membership in an insertion step. -/
theorem mem_insort (x a : String) (l : List String) : a ∈ insort x l ↔ a = x ∨ a ∈ l := by
  induction l with
  | nil => simp [insort]
  | cons y ys ih =>
    simp only [insort]
    by_cases h : str_le x y = true
    · rw [if_pos h]
      simp only [List.mem_cons]
    · rw [if_neg h]
      simp only [List.mem_cons, ih]
      tauto

/-- Sorting the directory listing preserves membership. -/
theorem mem_sort_strings (a : String) (l : List String) : a ∈ sort_strings l ↔ a ∈ l := by
  induction l with
  | nil => simp [sort_strings]
  | cons y ys ih =>
    have hstep : sort_strings (y :: ys) = insort y (sort_strings ys) := rfl
    rw [hstep, mem_insort, ih, List.mem_cons]

end Dc2DmCatalog

open Dc2DmCatalog in
/-- Counterexample to claim C4 as stated: in a concrete environment whose
declared and inferred schemas are both empty while datasets exist,
`_subclass_init` does not raise a "no schema" error — construction succeeds
and the resolved schema is empty. -/
theorem claim_c4_counterexample :
    subclass_init c4_env = .ok ⟨[], ["source_visit_1.parquet"], some 3⟩
    ∧ declared_schema c4_env = []
    ∧ c4_env.inferred ["source_visit_1.parquet"] = [] := by decide

open Dc2DmCatalog in
/-- Claim C4 (amended): columnar-backend construction raises a configuration
error when the base directory does not exist, and raises a "no datasets"
error when the directory exists but zero files match the filename pattern;
but when both the declared schema and inference from the datasets are empty
it does not raise — construction succeeds (with only a warning) and the
resolved schema is empty. -/
theorem claim_c4_subclass_init (env : InitEnv) :
    (env.base_dir_is_dir = false → subclass_init env = .error .invalidBaseDir)
    ∧ (env.base_dir_is_dir = true → (∀ f ∈ env.listing, env.re_match f = false) →
        subclass_init env = .error .noCatalogsFound)
    ∧ (env.base_dir_is_dir = true →
        generate_datasets env.listing env.re_match env.open_ok ≠ [] →
        declared_schema env = [] →
        env.inferred (generate_datasets env.listing env.re_match env.open_ok) = [] →
        ∃ st, subclass_init env = .ok st ∧ st.schema = []) := by
  refine ⟨fun h1 => ?_, fun h1 h2 => ?_, fun h1 h2 h3 h4 => ?_⟩
  · simp [subclass_init, h1]
  · have hempty : generate_datasets env.listing env.re_match env.open_ok = [] := by
      apply List.filter_eq_nil_iff.mpr
      intro f hf
      have hm := h2 f ((mem_sort_strings f env.listing).mp hf)
      simp [hm]
    simp [subclass_init, h1, hempty]
  · refine ⟨⟨[], generate_datasets env.listing env.re_match env.open_ok,
        if env.is_dpdd then none else some (detect_dm_schema_version [])⟩, ?_, rfl⟩
    simp [subclass_init, h1, h2, h3, h4]

open Dc2DmCatalog in
/-- Witness for claim C4 (amended): the theorem applied to the three
concrete environments. -/
theorem claim_c4_witness :
    subclass_init c4_env_bad_dir = .error .invalidBaseDir
    ∧ subclass_init c4_env_no_match = .error .noCatalogsFound
    ∧ (∃ st, subclass_init c4_env = .ok st ∧ st.schema = []) :=
  ⟨(claim_c4_subclass_init c4_env_bad_dir).1 rfl,
   (claim_c4_subclass_init c4_env_no_match).2.1 rfl (by decide),
   (claim_c4_subclass_init c4_env).2.2 rfl (by decide) rfl rfl⟩

/-! ### Claim C7 -/

open Dc2DmCatalog in
/-- Claim C7: when a file exists at the schema path, `generate_schema_yaml`
without `overwrite` raises and leaves the file system — in particular the
existing schema artifact — unchanged; with `overwrite` it succeeds, the
sibling `.bak` path afterwards holds the previous artifact's content (the
backup is taken before the artifact is replaced, so it is the old content,
not the regenerated one), and the schema path holds the regenerated
schema. -/
theorem claim_c7_generate_schema_yaml {α : Type} (sp : String) (hsp : sp ≠ "")
    (fs : FileSys α) (old regenerated : α) (hold : fs sp = some old) :
    generate_schema_yaml sp false regenerated fs = (fs, some .alreadyExists)
    ∧ (generate_schema_yaml sp true regenerated fs).2 = none
    ∧ (generate_schema_yaml sp true regenerated fs).1 (sp ++ ".bak") = some old
    ∧ (generate_schema_yaml sp true regenerated fs).1 sp = some regenerated := by
  have hcond : sp ≠ "" ∧ (fs sp).isSome := ⟨hsp, by simp [hold]⟩
  have hlen4 : (".bak" : String).length = 4 := rfl
  have hbak : ¬(sp ++ ".bak" = sp) := by
    intro h
    have hl := congrArg String.length h
    rw [String.length_append, hlen4] at hl
    omega
  refine ⟨?_, ?_, ?_, ?_⟩
  · simp [generate_schema_yaml, hcond]
  · simp [generate_schema_yaml, hcond]
  · simp [generate_schema_yaml, hcond, fs_write, fs_copyfile, hbak, hold]
  · simp [generate_schema_yaml, hcond, fs_write]

open Dc2DmCatalog in
/-- Witness for claim C7: the theorem applied to the concrete file system
`c7_fs`, regenerating content `1` over the existing content `0`. -/
theorem claim_c7_witness :
    generate_schema_yaml "schema.yaml" false 1 c7_fs = (c7_fs, some .alreadyExists)
    ∧ (generate_schema_yaml "schema.yaml" true 1 c7_fs).2 = none
    ∧ (generate_schema_yaml "schema.yaml" true 1 c7_fs).1 ("schema.yaml" ++ ".bak") = some 0
    ∧ (generate_schema_yaml "schema.yaml" true 1 c7_fs).1 "schema.yaml" = some 1 :=
  claim_c7_generate_schema_yaml "schema.yaml" (by decide) c7_fs 0 1 rfl

/-! ### Claim C8 -/

namespace Dc2DmCatalog

/-- A successful lookup pinpoints a member of the association list. -/
theorem mem_of_lookup_eq_some {α β : Type} [BEq α] [LawfulBEq α]
    {l : List (α × β)} {k : α} {b : β} (h : l.lookup k = some b) : (k, b) ∈ l := by
  obtain ⟨l₁, l₂, rfl, -⟩ := List.lookup_eq_some_iff.mp h
  simp

end Dc2DmCatalog

open Dc2DmCatalog in
/-- Claim C8: opening the same path twice returns the identical cached
handle and the second open leaves the cache untouched; after
`close_all_file_handles` the handle cache is empty, and a subsequent open of
the same path constructs a new handle distinct from the first one.  The
hypothesis is the cache well-formedness invariant, true of the initial empty
cache and preserved by every operation. -/
theorem claim_c8_open_parquet (s : FileHandleState) (p : String) (hwf : HandlesWF s) :
    (open_parquet (open_parquet s p).2 p).1 = (open_parquet s p).1
    ∧ (open_parquet (open_parquet s p).2 p).2 = (open_parquet s p).2
    ∧ (close_all_file_handles (open_parquet s p).2).handles = []
    ∧ (open_parquet (close_all_file_handles (open_parquet s p).2) p).1
        ≠ (open_parquet s p).1 := by
  cases hl : s.handles.lookup p with
  | some h =>
    have hmem : (p, h) ∈ s.handles := mem_of_lookup_eq_some hl
    have hlt : h < s.next_handle := hwf (p, h) hmem
    refine ⟨?_, ?_, ?_, ?_⟩ <;>
      simp [open_parquet, close_all_file_handles, hl, List.lookup]
    omega
  | none =>
    have hself : ((p, s.next_handle) :: s.handles).lookup p = some s.next_handle :=
      List.lookup_cons_self
    refine ⟨?_, ?_, ?_, ?_⟩ <;>
      simp [open_parquet, close_all_file_handles, hl, hself, List.lookup]

open Dc2DmCatalog in
/-- Witness for claim C8: the theorem applied to the initial empty handle
cache and a concrete path. -/
theorem claim_c8_witness :
    (open_parquet (open_parquet ⟨[], 0⟩ "f.parquet").2 "f.parquet").1
        = (open_parquet ⟨[], 0⟩ "f.parquet").1
    ∧ (open_parquet (open_parquet ⟨[], 0⟩ "f.parquet").2 "f.parquet").2
        = (open_parquet ⟨[], 0⟩ "f.parquet").2
    ∧ (close_all_file_handles (open_parquet ⟨[], 0⟩ "f.parquet").2).handles = []
    ∧ (open_parquet (close_all_file_handles (open_parquet ⟨[], 0⟩ "f.parquet").2) "f.parquet").1
        ≠ (open_parquet ⟨[], 0⟩ "f.parquet").1 :=
  claim_c8_open_parquet ⟨[], 0⟩ "f.parquet" (fun ph hph => by cases hph)

/-! ### Claim C1 -/

open Dc2Truth22i in
/-- Claim C1: for the relational backend with base filters `["x>0"]` and
call-time filters `["y<5"]`, the getter invoked on `["a", "b"]` executes
exactly `SELECT a, b FROM <table> WHERE (x>0) AND (y<5);` — base filters
first, each filter parenthesized, joined by AND — and the record dtype maps
each requested column's declared storage type through the fixed table
BIGINT→int64, INT→int32, FLOAT→float32, DOUBLE→float64. -/
theorem claim_c1_truth_query_plan (rows : List (String × String)) (table : String)
    (va vb : String) (ha : raw_dtype rows "a" = some va) (hb : raw_dtype rows "b" = some vb) :
    truth_getter_plan table (native_dtype rows)
        (truth_where_clause ["x>0"] (some ["y<5"])) ["a", "b"]
      = some ⟨"SELECT a, b FROM " ++ table ++ " WHERE (x>0) AND (y<5);",
          [("a", coerce_type va), ("b", coerce_type vb)]⟩
    ∧ coerce_type "BIGINT" = "int64" ∧ coerce_type "INT" = "int32"
    ∧ coerce_type "FLOAT" = "float32" ∧ coerce_type "DOUBLE" = "float64" := by
  refine ⟨?_, by decide, by decide, by decide, by decide⟩
  have hwc : truth_where_clause ["x>0"] (some ["y<5"]) = "WHERE (x>0) AND (y<5)" := by decide
  have hda : native_dtype rows "a" = some (coerce_type va) := by simp [native_dtype, ha]
  have hdb : native_dtype rows "b" = some (coerce_type vb) := by simp [native_dtype, hb]
  have hq : truth_query ["a", "b"] table "WHERE (x>0) AND (y<5)"
      = "SELECT a, b FROM " ++ table ++ " WHERE (x>0) AND (y<5);" := by
    simp only [truth_query]
    have h1 : String.intercalate ", " ["a", "b"] = "a, b" := by decide
    rw [h1]
    have h2 : ("SELECT " ++ "a, b" ++ " FROM " : String) = "SELECT a, b FROM " := by decide
    have h3 : (" " ++ ("WHERE (x>0) AND (y<5)" ++ ";") : String)
        = " WHERE (x>0) AND (y<5);" := by decide
    calc ("SELECT " ++ "a, b" ++ " FROM ") ++ table ++ " " ++ "WHERE (x>0) AND (y<5)" ++ ";"
        = ("SELECT " ++ "a, b" ++ " FROM ")
            ++ (table ++ (" " ++ ("WHERE (x>0) AND (y<5)" ++ ";"))) := by
          simp [String.append_assoc]
      _ = "SELECT a, b FROM " ++ (table ++ " WHERE (x>0) AND (y<5);") := by rw [h2, h3]
      _ = "SELECT a, b FROM " ++ table ++ " WHERE (x>0) AND (y<5);" := by
          rw [String.append_assoc]
  rw [hwc]
  simp [truth_getter_plan, record_dtype, hda, hdb, hq]

open Dc2Truth22i in
/-- Witness for claim C1: the theorem applied to a concrete table
introspection declaring `a BIGINT` and `b FLOAT` in table `truth`. -/
theorem claim_c1_witness :
    truth_getter_plan "truth" (native_dtype [("a", "BIGINT"), ("b", "FLOAT")])
        (truth_where_clause ["x>0"] (some ["y<5"])) ["a", "b"]
      = some ⟨"SELECT a, b FROM truth WHERE (x>0) AND (y<5);",
          [("a", "int64"), ("b", "float32")]⟩
    ∧ coerce_type "BIGINT" = "int64" ∧ coerce_type "INT" = "int32"
    ∧ coerce_type "FLOAT" = "float32" ∧ coerce_type "DOUBLE" = "float64" :=
  claim_c1_truth_query_plan [("a", "BIGINT"), ("b", "FLOAT")] "truth" "BIGINT" "FLOAT" rfl rfl

/-! ### Claim C9 -/

open Dc2Truth22i in
/-- Claim C9: in the relational backend's construction, a column whose
declared storage type is not one of BIGINT, INT, FLOAT, DOUBLE keeps its
declared type string unchanged in the per-column dtype table (no error, no
coercion), while exactly those four declared types are rewritten to int64,
int32, float32 and float64. -/
theorem claim_c9_coerce_type (rows : List (String × String)) (q v : String)
    (hv : raw_dtype rows q = some v)
    (h1 : v ≠ "BIGINT") (h2 : v ≠ "INT") (h3 : v ≠ "FLOAT") (h4 : v ≠ "DOUBLE") :
    native_dtype rows q = some v ∧ coerce_type v = v
    ∧ coerce_type "BIGINT" = "int64" ∧ coerce_type "INT" = "int32"
    ∧ coerce_type "FLOAT" = "float32" ∧ coerce_type "DOUBLE" = "float64" := by
  have e1 : (v == ("BIGINT" : String)) = false := beq_eq_false_iff_ne.mpr h1
  have e2 : (v == ("INT" : String)) = false := beq_eq_false_iff_ne.mpr h2
  have e3 : (v == ("FLOAT" : String)) = false := beq_eq_false_iff_ne.mpr h3
  have e4 : (v == ("DOUBLE" : String)) = false := beq_eq_false_iff_ne.mpr h4
  have hc : coerce_type v = v := by
    simp [coerce_type, type_dict, List.lookup, e1, e2, e3, e4]
  exact ⟨by simp [native_dtype, hv, hc], hc, by decide, by decide, by decide, by decide⟩

open Dc2Truth22i in
/-- Witness for claim C9: the theorem applied to a concrete introspection
declaring column `c` with the unknown storage type `TEXT`. -/
theorem claim_c9_witness :
    native_dtype [("c", "TEXT")] "c" = some "TEXT" ∧ coerce_type "TEXT" = "TEXT"
    ∧ coerce_type "BIGINT" = "int64" ∧ coerce_type "INT" = "int32"
    ∧ coerce_type "FLOAT" = "float32" ∧ coerce_type "DOUBLE" = "float64" :=
  claim_c9_coerce_type [("c", "TEXT")] "c" "TEXT" rfl
    (by decide) (by decide) (by decide) (by decide)

/-! ### Claim C10 -/

open Dc2Truth22i in
/-- Claim C10: a `base_filters` argument that is a single non-empty string
is wrapped as a one-element filter tuple (never iterated character by
character); a missing or empty `base_filters` becomes the empty tuple; and
an iteration call with no call-time filters and empty base filters produces
a query with no WHERE clause (the clause is the empty string). -/
theorem claim_c10_base_filters (s : String) (hs : s ≠ "") (table : String) (qs : List String) :
    init_base_filters (.str s) = [s]
    ∧ init_base_filters .absent = []
    ∧ init_base_filters (.str "") = []
    ∧ init_base_filters (.list []) = []
    ∧ truth_where_clause [] none = ""
    ∧ truth_query qs table (truth_where_clause [] none)
        = "SELECT " ++ String.intercalate ", " qs ++ " FROM " ++ table ++ " ;" := by
  refine ⟨by simp [init_base_filters, hs], by decide, by decide, by decide, by decide, ?_⟩
  have hwc : truth_where_clause [] none = "" := by decide
  rw [hwc]
  simp only [truth_query, String.append_empty]
  rw [String.append_assoc ("SELECT " ++ String.intercalate ", " qs ++ " FROM " ++ table) " " ";"]
  have h2 : (" " : String) ++ ";" = " ;" := by decide
  rw [h2]

open Dc2Truth22i in
/-- Witness for claim C10: the theorem applied to the concrete filter
string `x>0`, table `truth` and quantities `["a", "b"]`. -/
theorem claim_c10_witness :
    init_base_filters (.str "x>0") = ["x>0"]
    ∧ init_base_filters .absent = []
    ∧ init_base_filters (.str "") = []
    ∧ init_base_filters (.list []) = []
    ∧ truth_where_clause [] none = ""
    ∧ truth_query ["a", "b"] "truth" (truth_where_clause [] none)
        = "SELECT a, b FROM truth ;" :=
  claim_c10_base_filters "x>0" (by decide) "truth" ["a", "b"]
